import Mathlib

/-!
Shallow embedding of `src/main.py` (artist word-count statistics CLI).

The program fetches an artist's recordings from a paginated listing backend
(MusicBrainz), fetches per-track lyrics word counts (lyrics.ovh), and computes
statistics.  Network I/O is modelled by passing the parsed responses in as
explicit functions/arguments; the rest of the control flow is translated
directly from the Python source.

Modelling conventions:
* JSON bodies are modelled by structures with `Option` fields
  (`dict.get(key, None)` is field access, `dict[key]` on a missing key is a
  distinct crash outcome).
* `sys.exit(1)` and uncaught Python exceptions are both `Except.error`
  outcomes; either way the process terminates with exit status 1.
* Python `set(...)` is modelled by `List.dedup` (iteration order of a Python
  set is unspecified; every downstream consumer is order-insensitive).
* `float` arithmetic is idealised by exact rationals; `round(x, 2)` is
  modelled by round-half-to-even on rationals.
-/

/-- The requested quantity of tracks: `--limit n` or `--all`
(the spec's `FixedCount(n) | All`). -/
inductive Quantity where
  | fixedCount (n : Int)
  | all
deriving DecidableEq

/-- The value sent as the `limit` query parameter: the Python variable `limit`
holds either an `int` or the string literal `'all'` (src/main.py:41-48). -/
inductive LimitParam where
  | num (n : Int)
  | str (s : String)
deriving DecidableEq

/-- src/main.py:43-48: `limit = 'all'` when `--all` is given, otherwise
`(100, args.limit)[args.limit <= 100]`, i.e. `args.limit` when it is ≤ 100
and `100` otherwise. -/
def limitSetting : Quantity → LimitParam
  | .fixedCount n => .num (if n ≤ 100 then n else 100)
  | .all => .str ("all")

/-- One element of the backend's `recordings` list: a JSON object exposing a
`title` field (src/main.py:154/158 reads `dict['title']`). -/
structure Recording where
  title : String
deriving DecidableEq

/-- Parsed JSON body of a listing response: an optional total match `count`
and an optional `recordings` list. -/
structure RecordingsResponse where
  count : Option Nat
  recordings : Option (List Recording)

/-- A request issued to the listing backend: the `query`, `limit` and
(optional) `offset` parameters.  The initial query (src/main.py:124-129)
sends no `offset` key. -/
structure PageRequest where
  query : String
  limit : LimitParam
  offset : Option Nat
deriving DecidableEq

/-- Python `str.title()` on a list of characters (ASCII fidelity): a letter is
uppercased when the previous character is not a letter, lowercased otherwise. -/
def titleAux : Bool → List Char → List Char
  | _, [] => []
  | prev, c :: cs =>
      (if c.isAlpha then (if prev then c.toLower else c.toUpper) else c)
        :: titleAux c.isAlpha cs

/-- src/main.py:56 `artist_name.title()`. -/
def pythonTitle (s : String) : String :=
  ⟨titleAux false s.data⟩

/-- The initial listing query of `_get_artist_recordings`
(src/main.py:124-129): params `query = "artist:<name>"` and `limit` as set by
the CLI; no offset parameter. -/
def initialRequest (quant : Quantity) (artistName : String) : PageRequest :=
  ⟨"artist:" ++ artistName, limitSetting quant, none⟩

/-- The request issued by `_get_recording_data` for one offset
(src/main.py:105-108): `limit` is always the integer 100. -/
def recordingDataRequest (artistName : String) (off : Nat) : PageRequest :=
  ⟨"artist:" ++ artistName, .num 100, some off⟩

/-- Model of `_get_recording_data`: returns `data.get('recordings', None)`
(src/main.py:109-110); `page` maps an offset to the parsed response body. -/
def getRecordingData (page : Nat → RecordingsResponse) (off : Nat) :
    Option (List Recording) :=
  (page off).recordings

/-- src/main.py:141-143: `for i in range(count): offsets.append(100 * i)`. -/
def offsetsFor (count : Nat) : List Nat :=
  (List.range count).map (fun i => 100 * i)

/-- The supplemental paginated requests issued in the `--all` branch, one per
offset. -/
def suppPageRequests (artistName : String) (count : Nat) : List PageRequest :=
  (offsetsFor count).map (recordingDataRequest artistName)

/-- src/main.py:145-154: fetch every offset, `filter(None, recordings)`
(drops `None` results and empty lists — both are falsy), then collect
`dict['title']` of every element of every remaining page. -/
def allPathTrackNames (page : Nat → RecordingsResponse) (count : Nat) :
    List String :=
  (((offsetsFor count).map (getRecordingData page)).filterMap id
      |>.filter (fun l => l ≠ []))
    |>.flatMap (fun resp => resp.map Recording.title)

/-- A parsed `recordings` element is a JSON object carrying a `title` field,
hence a non-empty dict: always truthy under Python's `filter(None, ...)`
(src/main.py:157). -/
def recordingTruthy (_ : Recording) : Bool := true

/-- Terminal outcomes of building one `Artist`: the two deliberate
`sys.exit(1)` calls, and the uncaught exceptions that abort the process
(Python exits with status 1 on an uncaught exception, after a traceback). -/
inductive BuildStop where
  /-- src/main.py:132-134: zero matches, prints "Could not find any tracks
  for ..." and exits 1. -/
  | notFound (artistName : String)
  /-- src/main.py:93-95: no truthy word counts, prints "No lyrics found for
  the artist ..." and exits 1. -/
  | noLyrics (artistName : String)
  /-- src/main.py:156: `data['recordings']` raises `KeyError` when the key is
  absent. -/
  | recordingsKeyError
  /-- src/main.py:137: `int(data.get('count')/100)` raises `TypeError` when
  `count` is absent. -/
  | countTypeError
  /-- src/main.py:73-74: `requests.get(..., timeout=5)` raises on timeout;
  nothing catches it. -/
  | fetchTimeout
  /-- src/main.py:77: `json.loads(...)['lyrics']` raises on a malformed body
  or a missing `lyrics` key. -/
  | fetchBadBody
  /-- src/main.py:63: `statistics.variance` raises `StatisticsError` when
  fewer than two data points are given. -/
  | statisticsError
deriving DecidableEq

/-- Model of `_get_artist_recordings` (src/main.py:112-161), parameterised by the
parsed initial response and the per-offset supplemental responses.  Returns
the list of issued page requests together with the deduplicated track names
(`set(track_names)` modelled as `List.dedup`). -/
def getArtistRecordings (quant : Quantity) (artistName : String)
    (initResp : RecordingsResponse) (page : Nat → RecordingsResponse) :
    Except BuildStop (List PageRequest × List String) :=
  let initReq := initialRequest quant artistName
  if initResp.count = some 0 then
    .error (.notFound artistName)
  else
    match quant with
    | .all =>
        match initResp.count with
        | none => .error .countTypeError
        | some n =>
            let count := n / 100
            .ok (initReq :: suppPageRequests artistName count,
                 (allPathTrackNames page count).dedup)
    | .fixedCount _ =>
        match initResp.recordings with
        | none => .error .recordingsKeyError
        | some recs =>
            .ok ([initReq],
                 (((recs.filter recordingTruthy).map Recording.title)).dedup)

/-- src/main.py:86: `f'https://api.lyrics.ovh/v1/{self.artist_name}/{track_title}'`
— plain string interpolation, no escaping of either component. -/
def lyricsUrl (artistName trackTitle : String) : String :=
  "https://api.lyrics.ovh/v1/" ++ artistName ++ "/" ++ trackTitle

/-- Outcome of one lyrics request: a response with a status code and the
(optional) `lyrics` field of its parsed body, or a timeout. -/
inductive LyricsResult where
  | response (status : Int) (lyrics : Option String)
  | timeout
deriving DecidableEq

/-- Failure modes of `_get_word_count_from_track` that raise (and are never
caught). -/
inductive FetchError where
  | timeout
  | badBody
deriving DecidableEq

/-- Python `s.split(sep)` for a single-character separator: splits on every
occurrence, keeping empty fields; the result is never empty
(`''.split(' ') == ['']`). -/
def pySplit (sep : Char) : List Char → List (List Char)
  | [] => [[]]
  | c :: cs =>
      match pySplit sep cs with
      | [] => [[]]
      | w :: ws => if c = sep then [] :: w :: ws else (c :: w) :: ws

/-- src/main.py:77: `lyrics.replace('\n', ' ').split(' ')` token count.
Replacing one character by another is a character map. -/
def wordCount (lyrics : String) : Nat :=
  (pySplit ' ' (lyrics.data.map (fun c => if c = '\n' then ' ' else c))).length

/-- Model of `_get_word_count_from_track` (src/main.py:66-77): on status 200 parse the
body and count tokens; on any other status fall through and return `None`;
a timeout (or malformed 200 body) raises. -/
def getWordCountFromTrack : LyricsResult → Except FetchError (Option Nat)
  | .timeout => .error .timeout
  | .response status lyr =>
      if status = 200 then
        match lyr with
        | none => .error .badBody
        | some s => .ok (some (wordCount s))
      else .ok none

/-- Iterating the results of `executor.map` re-raises the first worker
exception, in order (src/main.py:88-91). -/
def collectValues : List (Except FetchError (Option Nat)) →
    Except FetchError (List (Option Nat))
  | [] => .ok []
  | .error e :: _ => .error e
  | .ok v :: rest => (collectValues rest).map (fun vs => v :: vs)

/-- src/main.py:91: `list(filter(None, values))` over `int | None` values —
keeps exactly the non-`None`, non-zero entries. -/
def truthyFilter (vs : List (Option Nat)) : List Nat :=
  (vs.filterMap id).filter (fun n => n ≠ 0)

/-- Model of `_get_length_of_tracks` (src/main.py:79-96), parameterised by the lyrics
backend `lyr : url ↦ result`.  Builds one URL per track, fetches all word
counts, keeps the truthy ones and exits 1 when none remain. -/
def getLengthOfTracks (artistName : String) (tracks : List String)
    (lyr : String → LyricsResult) : Except BuildStop (List Nat) :=
  let urls := tracks.map (lyricsUrl artistName)
  match collectValues (urls.map (fun u => getWordCountFromTrack (lyr u))) with
  | .error .timeout => .error .fetchTimeout
  | .error .badBody => .error .fetchBadBody
  | .ok vs =>
      let values := truthyFilter vs
      if values = [] then .error (.noLyrics artistName)
      else .ok values

/-- Round half to even on ℚ (the tie rule of Python's `round`; the binary
floating-point representation itself is idealised away). -/
def rhe (q : ℚ) : ℤ :=
  if q - ⌊q⌋ < 1 / 2 then ⌊q⌋
  else if 1 / 2 < q - ⌊q⌋ then ⌊q⌋ + 1
  else if ⌊q⌋ % 2 = 0 then ⌊q⌋ else ⌊q⌋ + 1

/-- Python `round(x, 2)`. -/
def round2 (q : ℚ) : ℚ :=
  (rhe (q * 100) : ℚ) / 100

/-- src/main.py:60: `round(sum(values) / len(values), 2)`. -/
def average (vs : List Nat) : ℚ :=
  round2 ((vs.sum : ℚ) / (vs.length : ℚ))

/-- Python `max(values)`: fold of binary max over a non-empty iterable
(raises on an empty one, hence `Option`). -/
def pyMax : List Nat → Option Nat
  | [] => none
  | v :: vs => some (vs.foldl max v)

/-- Python `min(values)`. -/
def pyMin : List Nat → Option Nat
  | [] => none
  | v :: vs => some (vs.foldl min v)

/-- Exact mean of a list of rationals (`statistics.mean`). -/
def sampleMean (vs : List ℚ) : ℚ :=
  vs.sum / (vs.length : ℚ)

/-- CPython's `statistics._ss`: sum of squared deviations from the mean, with
the spread-correction term `(Σ (x - c))² / n` subtracted (exactly zero over
exact arithmetic). -/
def ssTotal (vs : List ℚ) : ℚ :=
  let c := sampleMean vs
  (vs.map (fun x => (x - c) ^ 2)).sum
    - ((vs.map (fun x => x - c)).sum) ^ 2 / (vs.length : ℚ)

/-- Model of `statistics.variance(values)` (src/main.py:63): raises `StatisticsError`
for fewer than two data points, otherwise returns `ss / (n - 1)`. -/
def pyVariance (vs : List Nat) : Except BuildStop ℚ :=
  if vs.length < 2 then .error .statisticsError
  else .ok (ssTotal (vs.map (fun (n : ℕ) => (n : ℚ))) / ((vs.length : ℚ) - 1))

/-- The data an `Artist` instance holds after `__init__` succeeds
(src/main.py:55-64).  The standard deviation (src/main.py:64) is the real
square root of `variance` and is treated relationally in the theorems. -/
structure Profile where
  artist_name : String
  tracks : List String
  values : List Nat
  average : ℚ
  max : Nat
  min : Nat
  variance : ℚ
deriving DecidableEq

/-- Model of `Artist.__init__` (src/main.py:55-64): title-case the name, list the
tracks, collect the word counts, then derive the statistics;
`statistics.variance` raises on a single sample. -/
def buildArtist (quant : Quantity) (rawName : String)
    (initResp : RecordingsResponse) (page : Nat → RecordingsResponse)
    (lyr : String → LyricsResult) : Except BuildStop Profile := do
  let (_, tracks) ← getArtistRecordings quant (pythonTitle rawName) initResp page
  let values ← getLengthOfTracks (pythonTitle rawName) tracks lyr
  let var ← pyVariance values
  -- `values` is non-empty here (`getLengthOfTracks` exits otherwise), so the
  -- `getD 0` defaults are never taken.
  .ok ⟨pythonTitle rawName, tracks, values, average values,
       (pyMax values).getD 0, (pyMin values).getD 0, var⟩

/-- Process exit status: 0 on normal completion, 1 both for `sys.exit(1)` and
for an uncaught exception. -/
def exitCode : Except BuildStop Profile → Nat
  | .error _ => 1
  | .ok _ => 0

/-- The five numeric statistics an `Artist` exposes, as read by
`print_difference` (src/main.py:177-190). -/
structure StatsRecord where
  average : ℚ
  max : ℚ
  min : ℚ
  variance : ℚ
  standard_deviation : ℚ
deriving DecidableEq

/-- Model of `print_difference` (src/main.py:183-190): the five reported numbers,
`abs(other.stat - self.stat)` each. -/
def differenceReport (self other : StatsRecord) : StatsRecord :=
  ⟨|other.average - self.average|,
   |other.max - self.max|,
   |other.min - self.min|,
   |other.variance - self.variance|,
   |other.standard_deviation - self.standard_deviation|⟩

/-- Modelled from the spec: "path-escaped" (§4.2) — percent-encoding of every
character outside the RFC 3986 unreserved set, for ASCII inputs.  The source
contains no escaping call; this definition exists only to state what the spec
claims and compare it with `lyricsUrl`. -/
def pathEscapeChar (c : Char) : List Char :=
  if c.isAlphanum ∨ c = '-' ∨ c = '.' ∨ c = '_' ∨ c = '~' then [c]
  else ['%', (Nat.digitChar (c.toNat / 16)).toUpper,
        (Nat.digitChar (c.toNat % 16)).toUpper]

/-- Modelled from the spec: percent-escape a path segment. -/
def pathEscape (s : String) : String :=
  ⟨s.data.flatMap pathEscapeChar⟩

/-- Modelled from the spec: the URL §4.2 describes — both components
path-escaped. -/
def specLyricsUrl (artistName trackTitle : String) : String :=
  "https://api.lyrics.ovh/v1/" ++ pathEscape artistName ++ "/"
    ++ pathEscape trackTitle

/-- Modelled from the spec: "count of whitespace-delimited tokens" (§3) —
the number of non-empty tokens after splitting on spaces (newlines having
been normalised to spaces). -/
def specWordTokens (lyrics : String) : Nat :=
  ((pySplit ' ' (lyrics.data.map (fun c => if c = '\n' then ' ' else c))).filter
    (fun w => w ≠ [])).length

instance {ε α : Type} [DecidableEq ε] [DecidableEq α] :
    DecidableEq (Except ε α) := fun a b =>
  match a, b with
  | .error e, .error f =>
      match decEq e f with
      | isTrue h => isTrue (h ▸ rfl)
      | isFalse h => isFalse (fun hc => h (by cases hc; rfl))
  | .ok x, .ok y =>
      match decEq x y with
      | isTrue h => isTrue (h ▸ rfl)
      | isFalse h => isFalse (fun hc => h (by cases hc; rfl))
  | .error _, .ok _ => isFalse (fun hc => Except.noConfusion hc)
  | .ok _, .error _ => isFalse (fun hc => Except.noConfusion hc)

/-- One concrete supplemental-page environment: offset 0 holds titles A and B,
offset 100 holds title B again, everything else reports no `recordings`. -/
def pageEx : Nat → RecordingsResponse := fun off =>
  if off = 0 then ⟨none, some [⟨"A"⟩, ⟨"B"⟩]⟩
  else if off = 100 then ⟨none, some [⟨"B"⟩]⟩
  else ⟨none, none⟩

/-- A supplemental-page environment reporting no `recordings` anywhere. -/
def pageNone : Nat → RecordingsResponse := fun _ => ⟨none, none⟩

/-- A lyrics backend answering every request with 200 and a two-word text. -/
def lyrHello : String → LyricsResult := fun _ => .response 200 (some ("hello world"))

/-! ### Helper lemmas -/

theorem rhe_ge_floor (q : ℚ) : ⌊q⌋ ≤ rhe q := by
  unfold rhe
  split_ifs <;> omega

theorem rhe_le_ceil (q : ℚ) : rhe q ≤ ⌈q⌉ := by
  unfold rhe
  have hfc := Int.floor_le_ceil q
  split_ifs with h1 h2 h3
  · exact hfc
  · rw [Int.add_one_le_iff, Int.lt_ceil]
    have := Int.floor_le q
    linarith
  · exact hfc
  · rw [Int.add_one_le_iff, Int.lt_ceil]
    have := Int.floor_le q
    linarith

theorem rhe_intCast (z : ℤ) : rhe (z : ℚ) = z := by
  unfold rhe
  rw [Int.floor_intCast]
  simp

theorem int_le_round2 (z : ℤ) (q : ℚ) (h : (z : ℚ) ≤ q) :
    (z : ℚ) ≤ round2 q := by
  unfold round2
  have h100 : ((z * 100 : ℤ) : ℚ) ≤ q * 100 := by
    push_cast
    nlinarith
  have hfl : z * 100 ≤ ⌊q * 100⌋ := Int.le_floor.mpr h100
  have hrhe : z * 100 ≤ rhe (q * 100) := le_trans hfl (rhe_ge_floor _)
  have : ((z * 100 : ℤ) : ℚ) ≤ (rhe (q * 100) : ℚ) := Int.cast_le.mpr hrhe
  push_cast at this
  linarith

theorem round2_le_int (z : ℤ) (q : ℚ) (h : q ≤ (z : ℚ)) :
    round2 q ≤ (z : ℚ) := by
  unfold round2
  have h100 : q * 100 ≤ ((z * 100 : ℤ) : ℚ) := by
    push_cast
    nlinarith
  have hcl : ⌈q * 100⌉ ≤ z * 100 := Int.ceil_le.mpr h100
  have hrhe : rhe (q * 100) ≤ z * 100 := le_trans (rhe_le_ceil _) hcl
  have : (rhe (q * 100) : ℚ) ≤ ((z * 100 : ℤ) : ℚ) := Int.cast_le.mpr hrhe
  push_cast at this
  linarith

theorem round2_natCast (n : ℕ) : round2 (n : ℚ) = (n : ℚ) := by
  unfold round2
  have : ((n : ℚ)) * 100 = ((n * 100 : ℤ) : ℚ) := by push_cast; ring
  rw [this, rhe_intCast]
  push_cast
  ring

theorem le_foldl_max (ws : List ℕ) (x : ℕ) : x ≤ ws.foldl max x := by
  induction ws generalizing x with
  | nil => exact le_refl x
  | cons w ws ih =>
      exact le_trans (le_max_left x w) (ih (max x w))

theorem foldl_min_le (ws : List ℕ) (x : ℕ) : ws.foldl min x ≤ x := by
  induction ws generalizing x with
  | nil => exact le_refl x
  | cons w ws ih =>
      exact le_trans (ih (min x w)) (min_le_left x w)

theorem mem_le_foldl_max (vs : List ℕ) (v a : ℕ) (ha : a ∈ v :: vs) :
    a ≤ vs.foldl max v := by
  induction vs generalizing v with
  | nil =>
      rcases List.mem_singleton.mp ha with rfl
      exact le_refl a
  | cons w ws ih =>
      simp only [List.foldl_cons]
      rcases List.mem_cons.mp ha with rfl | hm
      · exact le_trans (le_max_left a w) (le_foldl_max ws (max a w))
      · rcases List.mem_cons.mp hm with rfl | hm2
        · exact le_trans (le_max_right v a) (le_foldl_max ws (max v a))
        · exact ih (max v w) (List.mem_cons.mpr (Or.inr hm2))

theorem foldl_min_le_mem (vs : List ℕ) (v a : ℕ) (ha : a ∈ v :: vs) :
    vs.foldl min v ≤ a := by
  induction vs generalizing v with
  | nil =>
      rcases List.mem_singleton.mp ha with rfl
      exact le_refl a
  | cons w ws ih =>
      simp only [List.foldl_cons]
      rcases List.mem_cons.mp ha with rfl | hm
      · exact le_trans (foldl_min_le ws (min a w)) (min_le_left a w)
      · rcases List.mem_cons.mp hm with rfl | hm2
        · exact le_trans (foldl_min_le ws (min v a)) (min_le_right v a)
        · exact ih (min v w) (List.mem_cons.mpr (Or.inr hm2))

/-- Claim C7: for every non-empty sequence of integer word counts, the
computed statistics satisfy min ≤ average ≤ max, where `average` is the sum
divided by the count, rounded to 2 decimal places. -/
theorem statistics_min_le_average_le_max (vs : List ℕ) (h : vs ≠ []) :
    ∃ mn mx, pyMin vs = some mn ∧ pyMax vs = some mx ∧
      (mn : ℚ) ≤ average vs ∧ average vs ≤ (mx : ℚ) := by
  obtain ⟨v, tl, rfl⟩ := List.exists_cons_of_ne_nil h
  refine ⟨tl.foldl min v, tl.foldl max v, rfl, rfl, ?_, ?_⟩
  all_goals
    have hlen : (0 : ℚ) < ((v :: tl).length : ℚ) := by
      have : 0 < (v :: tl).length := List.length_pos.mpr h
      exact_mod_cast this
  · have hbound : ∀ a ∈ v :: tl, tl.foldl min v ≤ a :=
      fun a ha => foldl_min_le_mem tl v a ha
    have hsum : (v :: tl).length * (tl.foldl min v) ≤ (v :: tl).sum := by
      have := List.card_nsmul_le_sum (v :: tl) (tl.foldl min v) hbound
      simpa [smul_eq_mul] using this
    have hq : ((tl.foldl min v : ℕ) : ℚ) ≤ ((v :: tl).sum : ℚ) / ((v :: tl).length : ℚ) := by
      rw [le_div_iff₀ hlen]
      have : (((v :: tl).length * (tl.foldl min v) : ℕ) : ℚ) ≤ (((v :: tl).sum : ℕ) : ℚ) :=
        Nat.cast_le.mpr hsum
      push_cast at this ⊢
      linarith
    have := int_le_round2 ((tl.foldl min v : ℕ) : ℤ)
      (((v :: tl).sum : ℚ) / ((v :: tl).length : ℚ)) (by push_cast; exact_mod_cast hq)
    unfold average
    push_cast at this ⊢
    exact this
  · have hbound : ∀ a ∈ v :: tl, a ≤ tl.foldl max v :=
      fun a ha => mem_le_foldl_max tl v a ha
    have hsum : (v :: tl).sum ≤ (v :: tl).length * (tl.foldl max v) := by
      have := List.sum_le_card_nsmul (v :: tl) (tl.foldl max v) hbound
      simpa [smul_eq_mul] using this
    have hq : ((v :: tl).sum : ℚ) / ((v :: tl).length : ℚ) ≤ ((tl.foldl max v : ℕ) : ℚ) := by
      rw [div_le_iff₀ hlen]
      have : (((v :: tl).sum : ℕ) : ℚ) ≤ (((v :: tl).length * (tl.foldl max v) : ℕ) : ℚ) :=
        Nat.cast_le.mpr hsum
      push_cast at this ⊢
      linarith
    have := round2_le_int ((tl.foldl max v : ℕ) : ℤ)
      (((v :: tl).sum : ℚ) / ((v :: tl).length : ℚ)) (by push_cast; exact_mod_cast hq)
    unfold average
    push_cast at this ⊢
    exact this

/-- Witness for C7 at the concrete sample `[3, 5]`. -/
theorem statistics_min_le_average_le_max_witness :
    ([3, 5] : List ℕ) ≠ [] ∧
    (∃ mn mx, pyMin [3, 5] = some mn ∧ pyMax [3, 5] = some mx ∧
      (mn : ℚ) ≤ average [3, 5] ∧ average [3, 5] ≤ (mx : ℚ)) :=
  ⟨by decide, statistics_min_le_average_le_max [3, 5] (by decide)⟩

theorem sum_map_sub_const (l : List ℚ) (c : ℚ) :
    (l.map (fun x => x - c)).sum = l.sum - l.length * c := by
  induction l with
  | nil => simp
  | cons a tl ih =>
      simp only [List.map_cons, List.sum_cons, List.length_cons, ih]
      push_cast
      ring

theorem sum_map_sub_mean (l : List ℚ) (h : l ≠ []) :
    (l.map (fun x => x - sampleMean l)).sum = 0 := by
  rw [sum_map_sub_const]
  unfold sampleMean
  have hlen : ((l.length : ℚ)) ≠ 0 := by
    have : 0 < l.length := List.length_pos.mpr h
    positivity
  field_simp

theorem ssTotal_eq_sum_sq (l : List ℚ) (h : l ≠ []) :
    ssTotal l = (l.map (fun x => (x - sampleMean l) ^ 2)).sum := by
  show (l.map (fun x => (x - sampleMean l) ^ 2)).sum
      - ((l.map (fun x => x - sampleMean l)).sum) ^ 2 / (l.length : ℚ)
      = (l.map (fun x => (x - sampleMean l) ^ 2)).sum
  rw [sum_map_sub_mean l h]
  simp

theorem sum_sq_nonneg (l : List ℚ) (c : ℚ) :
    0 ≤ (l.map (fun x => (x - c) ^ 2)).sum :=
  List.sum_nonneg (by
    intro q hq
    obtain ⟨x, _, rfl⟩ := List.mem_map.mp hq
    positivity)

/-- Claim C6: the variance attached to a profile is the sample variance with
denominator n−1 (`statistics.variance`), and the standard deviation is its
square root (well-defined since the variance is non-negative); on a
single-element sample the variance computation raises (`StatisticsError`)
rather than returning zero or NaN, while average, min and max all equal that
single element. -/
theorem statistics_variance_and_single_sample (vs : List ℕ) (x : ℕ)
    (h2 : 2 ≤ vs.length) :
    pyVariance vs =
      .ok (((vs.map (fun (n : ℕ) => (n : ℚ))).map
              (fun q => (q - sampleMean (vs.map (fun (n : ℕ) => (n : ℚ)))) ^ 2)).sum
            / ((vs.length : ℚ) - 1)) ∧
    (∀ v : ℚ, pyVariance vs = .ok v →
      0 ≤ v ∧ ∃! s : ℝ, 0 ≤ s ∧ s ^ 2 = (v : ℝ)) ∧
    pyVariance [x] = .error .statisticsError ∧
    average [x] = (x : ℚ) ∧
    pyMax [x] = some x ∧ pyMin [x] = some x := by
  have hne : vs.map (fun (n : ℕ) => (n : ℚ)) ≠ [] := by
    intro hc
    have hl : (vs.map (fun (n : ℕ) => (n : ℚ))).length = vs.length := by
      rw [List.length_map]
    rw [hc, List.length_nil] at hl
    omega
  have hvar : pyVariance vs =
      .ok (((vs.map (fun (n : ℕ) => (n : ℚ))).map
              (fun q => (q - sampleMean (vs.map (fun (n : ℕ) => (n : ℚ)))) ^ 2)).sum
            / ((vs.length : ℚ) - 1)) := by
    unfold pyVariance
    rw [if_neg (by omega)]
    rw [ssTotal_eq_sum_sq _ hne]
  refine ⟨hvar, ?_, ?_, ?_, rfl, rfl⟩
  · intro v hv
    rw [hvar] at hv
    have hveq := Except.ok.inj hv
    have hnum := sum_sq_nonneg (vs.map (fun (n : ℕ) => (n : ℚ)))
      (sampleMean (vs.map (fun (n : ℕ) => (n : ℚ))))
    have hden : (0 : ℚ) < (vs.length : ℚ) - 1 := by
      have : (2 : ℚ) ≤ (vs.length : ℚ) := by exact_mod_cast h2
      linarith
    have hv0 : 0 ≤ v := by
      rw [← hveq]
      exact div_nonneg hnum (le_of_lt hden)
    refine ⟨hv0, Real.sqrt v, ⟨Real.sqrt_nonneg _, Real.sq_sqrt (by exact_mod_cast hv0)⟩, ?_⟩
    intro y hy
    rw [← Real.sqrt_sq hy.1, hy.2]
  · unfold pyVariance
    rw [if_pos (by simp)]
  · unfold average
    have : (([x] : List ℕ).sum : ℚ) / (([x] : List ℕ).length : ℚ) = (x : ℚ) := by
      simp
    rw [this, round2_natCast]

/-- Witness for C6 at the concrete sample `[3, 5]` (and single element `5`). -/
theorem statistics_variance_and_single_sample_witness :
    2 ≤ ([3, 5] : List ℕ).length ∧
    (pyVariance [3, 5] =
        .ok ((([3, 5].map (fun (n : ℕ) => (n : ℚ))).map
                (fun q => (q - sampleMean ([3, 5].map (fun (n : ℕ) => (n : ℚ)))) ^ 2)).sum
              / ((([3, 5] : List ℕ).length : ℚ) - 1)) ∧
      (∀ v : ℚ, pyVariance [3, 5] = .ok v →
        0 ≤ v ∧ ∃! s : ℝ, 0 ≤ s ∧ s ^ 2 = (v : ℝ)) ∧
      pyVariance [5] = .error .statisticsError ∧
      average [5] = ((5 : ℕ) : ℚ) ∧
      pyMax [5] = some 5 ∧ pyMin [5] = some 5) :=
  ⟨by decide, statistics_variance_and_single_sample [3, 5] 5 (by decide)⟩

theorem getArtistRecordings_all_eq (name : String) (N : Nat)
    (recs : Option (List Recording)) (page : Nat → RecordingsResponse)
    (hN : N ≠ 0) :
    getArtistRecordings .all name ⟨some N, recs⟩ page =
      .ok (initialRequest .all name :: suppPageRequests name (N / 100),
           (allPathTrackNames page (N / 100)).dedup) := by
  unfold getArtistRecordings
  rw [if_neg (show ¬(RecordingsResponse.mk (some N) recs).count = some 0 by
    simp [hN])]

theorem mem_allPathTrackNames (page : Nat → RecordingsResponse) (c : Nat)
    (t : String) :
    t ∈ allPathTrackNames page c ↔
      ∃ i, i < c ∧ ∃ r ∈ (page (100 * i)).recordings.getD [], r.title = t := by
  unfold allPathTrackNames getRecordingData offsetsFor
  constructor
  · intro ht
    obtain ⟨l, hl, htl⟩ := List.mem_flatMap.mp ht
    obtain ⟨hl1, hl2⟩ := List.mem_filter.mp hl
    obtain ⟨o, ho, hoeq⟩ := List.mem_filterMap.mp hl1
    obtain ⟨off, hoff, rfl⟩ := List.mem_map.mp ho
    obtain ⟨i, hi, rfl⟩ := List.mem_map.mp hoff
    obtain ⟨r, hr, rfl⟩ := List.mem_map.mp htl
    refine ⟨i, List.mem_range.mp hi, r, ?_, rfl⟩
    simp only [id_eq] at hoeq
    rw [hoeq]
    exact hr
  · rintro ⟨i, hi, r, hr, rfl⟩
    cases hrec : (page (100 * i)).recordings with
    | none =>
        rw [hrec] at hr
        simp at hr
    | some l =>
        rw [hrec] at hr
        simp only [Option.getD_some] at hr
        refine List.mem_flatMap.mpr ⟨l, List.mem_filter.mpr ⟨?_, ?_⟩, List.mem_map.mpr ⟨r, hr, rfl⟩⟩
        · refine List.mem_filterMap.mpr ⟨(page (100 * i)).recordings, ?_, by simp [hrec]⟩
          exact List.mem_map.mpr ⟨100 * i,
            List.mem_map.mpr ⟨i, List.mem_range.mpr hi, rfl⟩, rfl⟩
        · have : l ≠ [] := List.ne_nil_of_mem hr
          simpa using this

/-- Claim C1: for the All quantity, after the initial query reports a total
match count N > 0, the listing issues exactly ⌊N/100⌋ supplemental paginated
requests, with offsets 100·i for every i in [0, ⌊N/100⌋), each with page size
100, and merges the non-empty pages (dropped pages are skipped, not retried)
into one deduplicated set of titles. -/
theorem trackLister_all_pagination (name : String) (N : Nat)
    (recs : Option (List Recording)) (page : Nat → RecordingsResponse)
    (hN : N ≠ 0) :
    getArtistRecordings .all name ⟨some N, recs⟩ page =
      .ok (initialRequest .all name :: suppPageRequests name (N / 100),
           (allPathTrackNames page (N / 100)).dedup) ∧
    (suppPageRequests name (N / 100)).length = N / 100 ∧
    (∀ i, i < N / 100 →
      (suppPageRequests name (N / 100))[i]? =
        some ⟨"artist:" ++ name, .num 100, some (100 * i)⟩) ∧
    (∀ t, t ∈ (allPathTrackNames page (N / 100)).dedup ↔
      ∃ i, i < N / 100 ∧
        ∃ r ∈ (page (100 * i)).recordings.getD [], r.title = t) ∧
    ((allPathTrackNames page (N / 100)).dedup).Nodup := by
  refine ⟨getArtistRecordings_all_eq name N recs page hN, ?_, ?_, ?_,
          List.nodup_dedup _⟩
  · simp [suppPageRequests, offsetsFor]
  · intro i hi
    simp [suppPageRequests, offsetsFor, recordingDataRequest,
          List.getElem?_map, List.getElem?_range, hi]
  · intro t
    rw [List.mem_dedup]
    exact mem_allPathTrackNames page (N / 100) t

/-- Witness for C1 at N = 250 (⌊250/100⌋ = 2 supplemental requests). -/
theorem trackLister_all_pagination_witness :
    (250 : Nat) ≠ 0 ∧
    (getArtistRecordings .all ("Queen") ⟨some 250, none⟩ pageEx =
      .ok (initialRequest .all ("Queen") :: suppPageRequests ("Queen") (250 / 100),
           (allPathTrackNames pageEx (250 / 100)).dedup) ∧
    (suppPageRequests ("Queen") (250 / 100)).length = 250 / 100 ∧
    (∀ i, i < 250 / 100 →
      (suppPageRequests ("Queen") (250 / 100))[i]? =
        some ⟨"artist:" ++ "Queen", .num 100, some (100 * i)⟩) ∧
    (∀ t, t ∈ (allPathTrackNames pageEx (250 / 100)).dedup ↔
      ∃ i, i < 250 / 100 ∧
        ∃ r ∈ (pageEx (100 * i)).recordings.getD [], r.title = t) ∧
    ((allPathTrackNames pageEx (250 / 100)).dedup).Nodup) :=
  ⟨by decide, trackLister_all_pagination ("Queen") 250 none pageEx (by decide)⟩

/-- Claim C10: when the quantity is All, the returned track-title set is built
exclusively from the supplemental paginated requests (offsets 0, 100, ...):
the recordings list of the initial query is discarded (the result does not
depend on it), and — whenever at least one supplemental request is issued,
i.e. N ≥ 100 — the offset-0 page is fetched a second time by the supplemental
batch.  When 0 < N < 100 the supplemental batch is empty and the returned set
is empty. -/
theorem trackLister_all_discards_initial_recordings (name : String) (N : Nat)
    (recs recs2 : Option (List Recording)) (page : Nat → RecordingsResponse)
    (hN : N ≠ 0) :
    getArtistRecordings .all name ⟨some N, recs⟩ page =
      getArtistRecordings .all name ⟨some N, recs2⟩ page ∧
    getArtistRecordings .all name ⟨some N, recs⟩ page =
      .ok (initialRequest .all name :: suppPageRequests name (N / 100),
           (allPathTrackNames page (N / 100)).dedup) ∧
    (100 ≤ N → recordingDataRequest name 0 ∈ suppPageRequests name (N / 100)) ∧
    (N < 100 → suppPageRequests name (N / 100) = [] ∧
      (allPathTrackNames page (N / 100)).dedup = []) := by
  refine ⟨?_, getArtistRecordings_all_eq name N recs page hN, ?_, ?_⟩
  · rw [getArtistRecordings_all_eq name N recs page hN,
        getArtistRecordings_all_eq name N recs2 page hN]
  · intro h100
    have h1 : 0 < N / 100 := Nat.div_pos h100 (by omega)
    unfold suppPageRequests offsetsFor
    refine List.mem_map.mpr ⟨0, ?_, rfl⟩
    exact List.mem_map.mpr ⟨0, List.mem_range.mpr h1, by simp⟩
  · intro hlt
    have hz : N / 100 = 0 := Nat.div_eq_of_lt hlt
    rw [hz]
    refine ⟨?_, ?_⟩ <;> simp [suppPageRequests, offsetsFor, allPathTrackNames]

/-- Witness for C10 at N = 250 with two different initial recordings lists. -/
theorem trackLister_all_discards_initial_recordings_witness :
    (250 : Nat) ≠ 0 ∧
    (getArtistRecordings .all ("Queen") ⟨some 250, none⟩ pageEx =
      getArtistRecordings .all ("Queen") ⟨some 250, some [⟨"X"⟩]⟩ pageEx ∧
    getArtistRecordings .all ("Queen") ⟨some 250, none⟩ pageEx =
      .ok (initialRequest .all ("Queen") :: suppPageRequests ("Queen") (250 / 100),
           (allPathTrackNames pageEx (250 / 100)).dedup) ∧
    (100 ≤ 250 → recordingDataRequest ("Queen") 0 ∈ suppPageRequests ("Queen") (250 / 100)) ∧
    (250 < 100 → suppPageRequests ("Queen") (250 / 100) = [] ∧
      (allPathTrackNames pageEx (250 / 100)).dedup = [])) :=
  ⟨by decide, trackLister_all_discards_initial_recordings ("Queen") 250 none
    (some [⟨"X"⟩]) pageEx (by decide)⟩

/-- Counterexample to C3: a timeout is not treated as absent — the uncaught
`Timeout` exception propagates out of the fetch. -/
theorem lyricsFetcher_timeout_counterexample :
    getWordCountFromTrack .timeout = .error .timeout ∧
    getWordCountFromTrack .timeout ≠ .ok none := by
  refine ⟨rfl, ?_⟩
  intro h
  exact Except.noConfusion h

/-- Claim C3 (amended): for every status and body, the fetch returns absent
(raising no error) on any non-200 HTTP status; a request timeout, however, is
not treated as absent: the timeout exception propagates uncaught (it is still
never retried). -/
theorem lyricsFetcher_non200_absent (status : Int) (lyr : Option String)
    (h : status ≠ 200) :
    getWordCountFromTrack (.response status lyr) = .ok none ∧
    getWordCountFromTrack .timeout = .error .timeout := by
  refine ⟨?_, rfl⟩
  simp only [getWordCountFromTrack]
  rw [if_neg h]

/-- Witness for C3 (amended) at a mocked 404 response. -/
theorem lyricsFetcher_non200_absent_witness :
    ((404 : Int) ≠ 200) ∧
    (getWordCountFromTrack (.response 404 (some ("x"))) = .ok none ∧
     getWordCountFromTrack .timeout = .error .timeout) :=
  ⟨by decide, lyricsFetcher_non200_absent 404 (some ("x")) (by decide)⟩

/-- Counterexample to C4: in the All case the initial query's `limit`
parameter is the literal string `'all'`, not the number 100. -/
theorem trackLister_all_limit_counterexample :
    (initialRequest .all ("Queen")).limit = .str ("all") ∧
    (initialRequest .all ("Queen")).limit ≠ .num 100 := by
  refine ⟨rfl, ?_⟩
  intro h
  exact LimitParam.noConfusion h

/-- Claim C4 (amended): the initial listing query is issued with page size
min(n, 100) when the quantity is FixedCount(n); when the quantity is All its
`limit` parameter is the literal string `'all'` (not 100). -/
theorem trackLister_initial_page_size (n : Int) (name : String) :
    (initialRequest (.fixedCount n) name).limit = .num (min n 100) ∧
    (initialRequest .all name).limit = .str ("all") ∧
    initialRequest (.fixedCount n) name =
      ⟨"artist:" ++ name, .num (min n 100), none⟩ := by
  have hmin : (if n ≤ 100 then n else 100) = min n 100 := (min_def n 100).symm
  refine ⟨?_, rfl, ?_⟩ <;> simp [initialRequest, limitSetting, hmin]

theorem pySplit_ne_nil (sep : Char) (l : List Char) : pySplit sep l ≠ [] := by
  cases l with
  | nil => simp [pySplit]
  | cons c cs =>
      cases h : pySplit sep cs with
      | nil => simp [pySplit, h]
      | cons w ws =>
          simp only [pySplit, h]
          split <;> simp

theorem pySplit_length (sep : Char) (l : List Char) :
    (pySplit sep l).length = l.count sep + 1 := by
  induction l with
  | nil => simp [pySplit]
  | cons c cs ih =>
      cases h : pySplit sep cs with
      | nil => exact absurd h (pySplit_ne_nil sep cs)
      | cons w ws =>
          rw [h] at ih
          simp only [List.length_cons] at ih
          by_cases hc : c = sep
          · subst hc
            simp [pySplit, h, List.count_cons_self]
            omega
          · simp only [pySplit, h, if_neg hc, List.length_cons,
              List.count_cons_of_ne (fun he => hc he.symm)]
            omega

/-- Counterexample to C5: the returned count is the number of single-space
separated fields, not the number of whitespace-delimited tokens (`"a  b"`
yields 3, not 2), and an empty lyrics payload yields count 1, not absent. -/
theorem lyricsFetcher_word_count_counterexample :
    getWordCountFromTrack (.response 200 (some ("a  b"))) = .ok (some 3) ∧
    specWordTokens ("a  b") = 2 ∧
    getWordCountFromTrack (.response 200 (some (""))) = .ok (some 1) := by
  refine ⟨?_, ?_, ?_⟩ <;> decide

/-- Claim C5 (amended): on an HTTP 200 response the word count returned for a
track is one more than the number of space characters of the lyrics text
after newlines are replaced by spaces (i.e. the number of single-space
separated fields, empty fields included), hence always ≥ 1; on an empty
lyrics payload the result is 1 (the track is included), not absent. -/
theorem lyricsFetcher_word_count_fields (s : String) :
    getWordCountFromTrack (.response 200 (some s)) = .ok (some (wordCount s)) ∧
    wordCount s =
      (s.data.map (fun c => if c = '\n' then ' ' else c)).count ' ' + 1 ∧
    1 ≤ wordCount s ∧
    getWordCountFromTrack (.response 200 (some (""))) = .ok (some 1) := by
  refine ⟨rfl, ?_, ?_, by decide⟩
  · unfold wordCount
    exact pySplit_length _ _
  · unfold wordCount
    rw [pySplit_length]
    omega

/-- Counterexample to C8: the URL is keyed by the title-cased artist name (not
the exact one) and neither component is path-escaped. -/
theorem lyricsFetcher_url_counterexample :
    lyricsUrl (pythonTitle ("queen")) ("Bohemian Rhapsody") =
      "https://api.lyrics.ovh/v1/Queen/Bohemian Rhapsody" ∧
    specLyricsUrl ("queen") ("Bohemian Rhapsody") =
      "https://api.lyrics.ovh/v1/queen/Bohemian%20Rhapsody" ∧
    lyricsUrl (pythonTitle ("queen")) ("Bohemian Rhapsody") ≠
      specLyricsUrl ("queen") ("Bohemian Rhapsody") := by
  refine ⟨?_, ?_, ?_⟩ <;> decide

/-- Claim C8 (amended): the lyric lookup request URL embeds the title-cased
artist name and the exact track title verbatim (no path-escaping): it is the
fixed prefix, the title-cased artist, a slash, and the raw title, and the raw
title is literally a suffix of the URL. -/
theorem lyricsFetcher_url_verbatim (raw trackTitle : String) :
    lyricsUrl (pythonTitle raw) trackTitle =
      "https://api.lyrics.ovh/v1/" ++ pythonTitle raw ++ "/" ++ trackTitle ∧
    (lyricsUrl (pythonTitle raw) trackTitle).data =
      "https://api.lyrics.ovh/v1/".data ++ (pythonTitle raw).data
        ++ '/' :: trackTitle.data ∧
    trackTitle.data.IsSuffix (lyricsUrl (pythonTitle raw) trackTitle).data := by
  refine ⟨rfl, ?_, ?_⟩
  · unfold lyricsUrl
    simp [String.data_append]
  · unfold lyricsUrl
    refine ⟨"https://api.lyrics.ovh/v1/".data ++ (pythonTitle raw).data ++ ['/'], ?_⟩
    simp [String.data_append]

/-- Claim C9: the comparison report gives, for each of the five statistics,
the absolute value of the difference of the two profiles' values: every
reported difference is non-negative and unchanged when the profiles swap. -/
theorem comparisonReport_nonneg_symmetric (a b : StatsRecord) :
    0 ≤ (differenceReport a b).average ∧
    0 ≤ (differenceReport a b).max ∧
    0 ≤ (differenceReport a b).min ∧
    0 ≤ (differenceReport a b).variance ∧
    0 ≤ (differenceReport a b).standard_deviation ∧
    differenceReport a b = differenceReport b a := by
  unfold differenceReport
  refine ⟨abs_nonneg _, abs_nonneg _, abs_nonneg _, abs_nonneg _,
          abs_nonneg _, ?_⟩
  simp only [StatsRecord.mk.injEq]
  exact ⟨abs_sub_comm _ _, abs_sub_comm _ _, abs_sub_comm _ _,
         abs_sub_comm _ _, abs_sub_comm _ _⟩

theorem getArtistRecordings_count_zero (quant : Quantity) (name : String)
    (initResp : RecordingsResponse) (page : Nat → RecordingsResponse)
    (h : initResp.count = some 0) :
    getArtistRecordings quant name initResp page = .error (.notFound name) := by
  unfold getArtistRecordings
  rw [if_pos h]

theorem pyVariance_ok_length (vals : List ℕ) (v : ℚ)
    (h : pyVariance vals = .ok v) : 2 ≤ vals.length := by
  unfold pyVariance at h
  by_cases hl : vals.length < 2
  · rw [if_pos hl] at h
    exact absurd h (fun hc => Except.noConfusion hc)
  · omega

theorem buildArtist_error_rec (quant : Quantity) (raw : String)
    (initResp : RecordingsResponse) (page : Nat → RecordingsResponse)
    (lyr : String → LyricsResult) (e : BuildStop)
    (hrec : getArtistRecordings quant (pythonTitle raw) initResp page =
      .error e) :
    buildArtist quant raw initResp page lyr = .error e := by
  unfold buildArtist
  rw [hrec]
  rfl

theorem buildArtist_error_len (quant : Quantity) (raw : String)
    (initResp : RecordingsResponse) (page : Nat → RecordingsResponse)
    (lyr : String → LyricsResult) (reqs : List PageRequest)
    (tracks : List String) (e : BuildStop)
    (hrec : getArtistRecordings quant (pythonTitle raw) initResp page =
      .ok (reqs, tracks))
    (hlen : getLengthOfTracks (pythonTitle raw) tracks lyr = .error e) :
    buildArtist quant raw initResp page lyr = .error e := by
  unfold buildArtist
  rw [hrec]
  show (getLengthOfTracks (pythonTitle raw) tracks lyr >>= _) = _
  rw [hlen]
  rfl

theorem buildArtist_error_var (quant : Quantity) (raw : String)
    (initResp : RecordingsResponse) (page : Nat → RecordingsResponse)
    (lyr : String → LyricsResult) (reqs : List PageRequest)
    (tracks : List String) (vals : List ℕ) (e : BuildStop)
    (hrec : getArtistRecordings quant (pythonTitle raw) initResp page =
      .ok (reqs, tracks))
    (hlen : getLengthOfTracks (pythonTitle raw) tracks lyr = .ok vals)
    (hvar : pyVariance vals = .error e) :
    buildArtist quant raw initResp page lyr = .error e := by
  unfold buildArtist
  rw [hrec]
  show (getLengthOfTracks (pythonTitle raw) tracks lyr >>= _) = _
  rw [hlen]
  show (pyVariance vals >>= _) = _
  rw [hvar]
  rfl

theorem buildArtist_success (quant : Quantity) (raw : String)
    (initResp : RecordingsResponse) (page : Nat → RecordingsResponse)
    (lyr : String → LyricsResult) (reqs : List PageRequest)
    (tracks : List String) (vals : List ℕ) (v : ℚ)
    (hrec : getArtistRecordings quant (pythonTitle raw) initResp page =
      .ok (reqs, tracks))
    (hlen : getLengthOfTracks (pythonTitle raw) tracks lyr = .ok vals)
    (hvar : pyVariance vals = .ok v) :
    buildArtist quant raw initResp page lyr =
      .ok ⟨pythonTitle raw, tracks, vals, average vals,
           (pyMax vals).getD 0, (pyMin vals).getD 0, v⟩ := by
  unfold buildArtist
  rw [hrec]
  show (getLengthOfTracks (pythonTitle raw) tracks lyr >>= _) = _
  rw [hlen]
  show (pyVariance vals >>= _) = _
  rw [hvar]
  rfl

/-- Claim C2 (amended): building an artist profile exits 1 on "artist not
found" (total match count zero) and on "no lyrics found" (empty collected
sample) — two distinct failures; additionally, every other aborted build
(uncaught statistics error on a single-element sample, uncaught fetch
timeout or malformed body, missing response keys) also terminates the
process with exit status 1; when the build completes (which requires at
least two collected samples) the profile is built and the process exits 0. -/
theorem buildProfile_exit_codes (quant : Quantity) (raw : String)
    (initResp : RecordingsResponse) (page : Nat → RecordingsResponse)
    (lyr : String → LyricsResult) :
    (initResp.count = some 0 →
      buildArtist quant raw initResp page lyr =
        .error (.notFound (pythonTitle raw))) ∧
    (∀ e, buildArtist quant raw initResp page lyr = .error e →
      exitCode (buildArtist quant raw initResp page lyr) = 1) ∧
    (∀ p, buildArtist quant raw initResp page lyr = .ok p →
      exitCode (buildArtist quant raw initResp page lyr) = 0 ∧
      2 ≤ p.values.length) ∧
    (∀ name, BuildStop.notFound name ≠ BuildStop.noLyrics name) ∧
    (∀ reqs tracks,
      getArtistRecordings quant (pythonTitle raw) initResp page =
        .ok (reqs, tracks) →
      (getLengthOfTracks (pythonTitle raw) tracks lyr =
          .error (.noLyrics (pythonTitle raw)) →
        buildArtist quant raw initResp page lyr =
          .error (.noLyrics (pythonTitle raw))) ∧
      (∀ vals, getLengthOfTracks (pythonTitle raw) tracks lyr = .ok vals →
        (vals.length = 1 →
          buildArtist quant raw initResp page lyr = .error .statisticsError) ∧
        (2 ≤ vals.length →
          ∃ p, buildArtist quant raw initResp page lyr = .ok p ∧
            p.values = vals))) := by
  refine ⟨?_, ?_, ?_, ?_, ?_⟩
  · intro h0
    exact buildArtist_error_rec quant raw initResp page lyr _
      (getArtistRecordings_count_zero quant (pythonTitle raw) initResp page h0)
  · intro e he
    rw [he]
    rfl
  · intro p hp
    refine ⟨by rw [hp]; rfl, ?_⟩
    cases hrec : getArtistRecordings quant (pythonTitle raw) initResp page with
    | error e =>
        rw [buildArtist_error_rec quant raw initResp page lyr e hrec] at hp
        exact absurd hp (fun hc => Except.noConfusion hc)
    | ok pr =>
        obtain ⟨reqs, tracks⟩ := pr
        cases hlen : getLengthOfTracks (pythonTitle raw) tracks lyr with
        | error e =>
            rw [buildArtist_error_len quant raw initResp page lyr reqs tracks e
              hrec hlen] at hp
            exact absurd hp (fun hc => Except.noConfusion hc)
        | ok vals =>
            cases hvar : pyVariance vals with
            | error e =>
                rw [buildArtist_error_var quant raw initResp page lyr reqs
                  tracks vals e hrec hlen hvar] at hp
                exact absurd hp (fun hc => Except.noConfusion hc)
            | ok v =>
                rw [buildArtist_success quant raw initResp page lyr reqs tracks
                  vals v hrec hlen hvar] at hp
                have hpv := Except.ok.inj hp
                rw [← hpv]
                exact pyVariance_ok_length vals v hvar
  · intro name h
    exact BuildStop.noConfusion h
  · intro reqs tracks hrec
    constructor
    · intro hlyr
      exact buildArtist_error_len quant raw initResp page lyr reqs tracks _
        hrec hlyr
    · intro vals hvals
      constructor
      · intro h1
        have hv : pyVariance vals = .error .statisticsError := by
          unfold pyVariance
          rw [if_pos (by omega)]
        exact buildArtist_error_var quant raw initResp page lyr reqs tracks
          vals _ hrec hvals hv
      · intro h2
        have hnl : ¬ vals.length < 2 := by omega
        have hv : pyVariance vals =
            .ok (ssTotal (vals.map (fun (n : ℕ) => (n : ℚ)))
              / ((vals.length : ℚ) - 1)) := by
          unfold pyVariance
          rw [if_neg hnl]
        exact ⟨_, buildArtist_success quant raw initResp page lyr reqs tracks
          vals _ hrec hvals hv, rfl⟩

/-- Counterexample to C2: one track with two-word lyrics — neither "artist
not found" nor "no lyrics found", yet the process exits with status 1
(uncaught `StatisticsError` from the single-sample variance) instead of
building the profile and exiting 0. -/
theorem buildProfile_exit_code_counterexample :
    exitCode (buildArtist (.fixedCount 25) ("queen") ⟨some 1, some [⟨"Song"⟩]⟩
      pageNone lyrHello) = 1 ∧
    buildArtist (.fixedCount 25) ("queen") ⟨some 1, some [⟨"Song"⟩]⟩
      pageNone lyrHello = .error .statisticsError ∧
    BuildStop.statisticsError ≠ .notFound (pythonTitle ("queen")) ∧
    BuildStop.statisticsError ≠ .noLyrics (pythonTitle ("queen")) := by
  refine ⟨?_, ?_, ?_, ?_⟩ <;> decide

/-- Witness for C2 (amended) at a concrete environment. -/
theorem buildProfile_exit_codes_witness :
    ((⟨some 1, some [⟨"Song"⟩]⟩ : RecordingsResponse).count = some 0 →
      buildArtist (.fixedCount 25) ("queen") ⟨some 1, some [⟨"Song"⟩]⟩ pageNone
          lyrHello = .error (.notFound (pythonTitle ("queen")))) ∧
    (∀ e, buildArtist (.fixedCount 25) ("queen") ⟨some 1, some [⟨"Song"⟩]⟩
        pageNone lyrHello = .error e →
      exitCode (buildArtist (.fixedCount 25) ("queen")
        ⟨some 1, some [⟨"Song"⟩]⟩ pageNone lyrHello) = 1) ∧
    (∀ p, buildArtist (.fixedCount 25) ("queen") ⟨some 1, some [⟨"Song"⟩]⟩
        pageNone lyrHello = .ok p →
      exitCode (buildArtist (.fixedCount 25) ("queen")
        ⟨some 1, some [⟨"Song"⟩]⟩ pageNone lyrHello) = 0 ∧
      2 ≤ p.values.length) ∧
    (∀ name, BuildStop.notFound name ≠ BuildStop.noLyrics name) ∧
    (∀ reqs tracks,
      getArtistRecordings (.fixedCount 25) (pythonTitle ("queen"))
          ⟨some 1, some [⟨"Song"⟩]⟩ pageNone = .ok (reqs, tracks) →
      (getLengthOfTracks (pythonTitle ("queen")) tracks lyrHello =
          .error (.noLyrics (pythonTitle ("queen"))) →
        buildArtist (.fixedCount 25) ("queen") ⟨some 1, some [⟨"Song"⟩]⟩
          pageNone lyrHello = .error (.noLyrics (pythonTitle ("queen")))) ∧
      (∀ vals, getLengthOfTracks (pythonTitle ("queen")) tracks lyrHello =
          .ok vals →
        (vals.length = 1 →
          buildArtist (.fixedCount 25) ("queen") ⟨some 1, some [⟨"Song"⟩]⟩
            pageNone lyrHello = .error .statisticsError) ∧
        (2 ≤ vals.length →
          ∃ p, buildArtist (.fixedCount 25) ("queen")
              ⟨some 1, some [⟨"Song"⟩]⟩ pageNone lyrHello = .ok p ∧
            p.values = vals))) :=
  buildProfile_exit_codes (.fixedCount 25) ("queen") ⟨some 1, some [⟨"Song"⟩]⟩
    pageNone lyrHello
